import Mathlib

/-!
Shallow embedding of the resilient GitHub API-call wrapper and the
top-level orchestration error handling of
`.github/scripts/automation_script.py`.

The network is abstracted as a function from the attempt index to the
outcome the HTTP layer produces on that attempt (a response, or a
connection-level failure).  `github_api_call` is translated from the
Python function of the same name (lines 25-58): the `for attempt in
range(max_retries)` loop becomes structural recursion on the remaining
fuel, and the observable behaviour of a call is recorded as a
`CallTrace`: the final result (returned response, re-raised HTTP or
connection error, or the generic post-loop exception), the list of
`time.sleep` durations performed, and the number of HTTP attempts
issued.
-/

/-- Response as seen by the wrapper: `status_code`, body `text`, and the
value of the `X-RateLimit-Reset` header when present (the only header the
wrapper reads). -/
structure HttpResponse where
  status : Nat
  text : String
  rateLimitReset : Option Int
deriving Repr, DecidableEq

/-- Outcome of one `requests.request` invocation: either a response came
back, or a `requests.exceptions.ConnectionError` was raised. -/
inductive AttemptOutcome where
  | resp (r : HttpResponse)
  | connError
deriving Repr, DecidableEq

/-- How a `github_api_call` invocation terminates: a returned response, a
re-raised `HTTPError` carrying the final response, a re-raised
`ConnectionError`, or the generic `Exception` raised after the loop
(line 58). -/
inductive ExecResult where
  | success (r : HttpResponse)
  | httpError (r : HttpResponse)
  | connectionError
  | retriesExhausted
deriving Repr, DecidableEq

/-- Observable trace of one call: final result, the `time.sleep`
durations performed in order, and the number of HTTP attempts issued. -/
structure CallTrace where
  result : ExecResult
  sleeps : List Int
  attempts : Nat
deriving Repr, DecidableEq

/-- Does the pattern occur at the head of the text? -/
def patMatchesHere : List Char → List Char → Bool
  | [], _ => true
  | _ :: _, [] => false
  | p :: ps, c :: cs => p == c && patMatchesHere ps cs

/-- Does the pattern occur anywhere in the text? -/
def containsPat (pat : List Char) : List Char → Bool
  | [] => patMatchesHere pat []
  | c :: cs => patMatchesHere pat (c :: cs) || containsPat pat cs

/-- ASCII lowering of one character, as Python `str.lower` acts on the
ASCII range (the only range the rate-limit marker involves). -/
def asciiLower (c : Char) : Char :=
  if 65 ≤ c.toNat ∧ c.toNat ≤ 90 then Char.ofNat (c.toNat + 32) else c

/-- Translation of the line-37 test
`'rate limit exceeded' in e.response.text.lower()`. -/
def hasRateLimitMarker (text : String) : Bool :=
  containsPat "rate limit exceeded".data (text.data.map asciiLower)

/-- Translation of lines 39-40: `X-RateLimit-Reset` header with default
`time.time() + 60`, then `max(reset_time - int(time.time()) + 1, 10)`.
The model takes the current epoch second as the explicit parameter
`now`. -/
def rateLimitSleep (now : Int) (r : HttpResponse) : Int :=
  let resetTime := r.rateLimitReset.getD (now + 60)
  max (resetTime - now + 1) 10

/-- Line 29: `max_retries = 5`. -/
def maxRetries : Nat := 5

/-- One retry iteration as recorded in the trace: the current attempt
issued a request, slept `d` seconds, and the loop continued with trace
`t`. -/
def stepRetry (d : Int) (t : CallTrace) : CallTrace :=
  ⟨t.result, d :: t.sleeps, t.attempts + 1⟩

/-- Translation of the `for attempt in range(max_retries)` loop of
`github_api_call` (lines 30-57).  `attempt` is the loop index and `fuel`
the number of iterations left (`maxRetries - attempt` at every reachable
state); when the fuel runs out the loop has fallen through to the
generic line-58 `raise`.  `response.raise_for_status()` raises exactly
for `400 ≤ status < 600`; the except-branch then classifies: rate-limited
403 (sleep until reset, continue), 404 or 409 or last attempt (re-raise),
otherwise transient (sleep `2 ** attempt`, continue); a connection error
re-raises on the last attempt and otherwise sleeps `2 ** attempt` and
continues. -/
def github_api_loop (now : Int) (outcomes : Nat → AttemptOutcome) :
    Nat → Nat → CallTrace
  | _, 0 => ⟨.retriesExhausted, [], 0⟩
  | attempt, fuel + 1 =>
    match outcomes attempt with
    | .resp r =>
      if 400 ≤ r.status ∧ r.status < 600 then
        if r.status = 403 ∧ hasRateLimitMarker r.text = true then
          stepRetry (rateLimitSleep now r)
            (github_api_loop now outcomes (attempt + 1) fuel)
        else if r.status = 404 ∨ r.status = 409 ∨ attempt = maxRetries - 1 then
          ⟨.httpError r, [], 1⟩
        else
          stepRetry ((2 : Int) ^ attempt)
            (github_api_loop now outcomes (attempt + 1) fuel)
      else
        ⟨.success r, [], 1⟩
    | .connError =>
      if attempt = maxRetries - 1 then
        ⟨.connectionError, [], 1⟩
      else
        stepRetry ((2 : Int) ^ attempt)
          (github_api_loop now outcomes (attempt + 1) fuel)

/-- Translation of `github_api_call` (lines 25-58): run the retry loop
from attempt 0 with the full budget. -/
def github_api_call (now : Int) (outcomes : Nat → AttemptOutcome) : CallTrace :=
  github_api_loop now outcomes 0 maxRetries

/-- Concrete rate-limited 403 response (no reset header). -/
def rateLimited403 : HttpResponse :=
  ⟨403, "API rate limit exceeded for user", none⟩

/-- Concrete transient 500 response. -/
def serverError500 : HttpResponse :=
  ⟨500, "Internal Server Error", none⟩

/-- Concrete successful 200 response. -/
def ok200 : HttpResponse :=
  ⟨200, "ok", none⟩

/-!
Model of the top-level `__main__` error handling (lines 299-316).  The
orchestration steps inside the main `try` either complete, or raise a
`requests.exceptions.HTTPError` (carrying the final response), or raise
some other `Exception`.  Both handlers format a one-line error message
with `splitlines()[0]` — on the response body for an `HTTPError`, on
`str(e)` otherwise — then attempt exactly one failure-log append inside
a nested `try` whose `except` only prints, and finally call `exit(1)`.
`splitlines()` of an empty string is the empty list, so `[0]` then
raises an `IndexError` inside the handler itself, which nothing catches:
the interpreter terminates on that uncaught error and no log append is
attempted.
-/

/-- Error raised by an orchestration step: an `HTTPError` with the final
response status and body text, or any other `Exception` with its
`str`. -/
inductive PyError where
  | httpError (status : Nat) (text : String)
  | otherError (msg : String)
deriving Repr, DecidableEq

/-- Accumulates the characters of the current line (reversed) while
scanning; a final newline does not open a further empty line, matching
Python. -/
def pySplitlinesAux (cur : List Char) : List Char → List (List Char)
  | [] => [cur.reverse]
  | c :: cs =>
    if c = '\n' then
      match cs with
      | [] => [cur.reverse]
      | _ :: _ => cur.reverse :: pySplitlinesAux [] cs
    else
      pySplitlinesAux (c :: cur) cs

/-- Translation of Python `str.splitlines` as used by this program (the
separators occurring here are plain `\n`): the empty string yields the
empty list; otherwise the lines, a trailing newline opening no extra
empty line. -/
def pySplitlines (s : String) : List String :=
  match s.data with
  | [] => []
  | c :: cs => (pySplitlinesAux [] (c :: cs)).map fun l => ⟨l⟩

/-- How the process terminates: an explicit `exit(code)` (or falling off
the end of the script, exit code 0), or the interpreter aborting on an
error nothing caught. -/
inductive MainOutcome where
  | exitCode (n : Nat)
  | uncaughtInHandler
deriving Repr, DecidableEq

/-- Observable trace of the main block: how the process terminated and
how many failure-log appends were attempted. -/
structure MainTrace where
  outcome : MainOutcome
  failureLogAttempts : Nat
deriving Repr, DecidableEq

/-- Translation of lines 299-316.  `stepError` is what the orchestration
steps inside the main `try` produced (`none` = all completed); the
boolean argument is whether the failure-log append inside the handler
would itself raise.  Both handlers build
`error_message` with `splitlines()[0]` first; when that raises (empty
text), the handler dies before the log attempt.  Otherwise one log
append is attempted, its own failure only printed (line 306 / 315), and
`exit(1)` runs either way. -/
def runMain (stepError : Option PyError) (_logWriteFails : Bool) : MainTrace :=
  match stepError with
  | none => ⟨.exitCode 0, 0⟩
  | some (.httpError _ text) =>
    match (pySplitlines text).head? with
    | none => ⟨.uncaughtInHandler, 0⟩
    | some _ => ⟨.exitCode 1, 1⟩
  | some (.otherError msg) =>
    match (pySplitlines msg).head? with
    | none => ⟨.uncaughtInHandler, 0⟩
    | some _ => ⟨.exitCode 1, 1⟩

/-- Text the handler formats from: the response body of an `HTTPError`,
the exception message otherwise. -/
def PyError.handlerText : PyError → String
  | .httpError _ text => text
  | .otherError msg => msg

/-- Concrete rate-limited 403 response carrying a reset header. -/
def rateLimitedWithReset : HttpResponse :=
  ⟨403, "API rate limit exceeded", some 1200⟩

/-- Concrete 404 response. -/
def notFound404 : HttpResponse :=
  ⟨404, "Not Found", none⟩

/-- Concrete 302 redirect response. -/
def redirect302 : HttpResponse :=
  ⟨302, "Found", none⟩

/-- Attempt sequence: a rate-limited 403, then a 500, then 200s. -/
def outcomesA : Nat → AttemptOutcome
  | 0 => .resp rateLimited403
  | 1 => .resp serverError500
  | _ => .resp ok200

/-- Attempt sequence: a 500, then 200s — `outcomesA` with the
rate-limited attempt removed. -/
def outcomesB : Nat → AttemptOutcome
  | 0 => .resp serverError500
  | _ => .resp ok200

/-- Attempt sequence: rate-limited 403 on every attempt inside the
budget, a 200 on any attempt beyond it. -/
def rlThenOk : Nat → AttemptOutcome := fun i =>
  if i < 5 then .resp rateLimited403 else .resp ok200

/-- Attempt sequence: two connection errors, then 200s. -/
def connThenOk : Nat → AttemptOutcome := fun i =>
  if i < 2 then .connError else .resp ok200

/-!
Step lemmas: one unfolding of the retry loop for each branch of the
classification, shared by the claim theorems below.
-/

/-- Rate-limited 403 branch: sleep until reset and continue the loop. -/
theorem loop_step_rate_limited (now : Int) (outcomes : Nat → AttemptOutcome)
    (attempt fuel : Nat) (r : HttpResponse)
    (hout : outcomes attempt = .resp r) (h403 : r.status = 403)
    (hmk : hasRateLimitMarker r.text = true) :
    github_api_loop now outcomes attempt (fuel + 1) =
      stepRetry (rateLimitSleep now r)
        (github_api_loop now outcomes (attempt + 1) fuel) := by
  simp only [github_api_loop, hout]
  rw [if_pos (by omega), if_pos ⟨h403, hmk⟩]

/-- Branch raising immediately: 404 or 409 or the last attempt. -/
theorem loop_step_raise (now : Int) (outcomes : Nat → AttemptOutcome)
    (attempt fuel : Nat) (r : HttpResponse)
    (hout : outcomes attempt = .resp r)
    (herr : 400 ≤ r.status ∧ r.status < 600)
    (hnrl : ¬(r.status = 403 ∧ hasRateLimitMarker r.text = true))
    (hraise : r.status = 404 ∨ r.status = 409 ∨ attempt = maxRetries - 1) :
    github_api_loop now outcomes attempt (fuel + 1) = ⟨.httpError r, [], 1⟩ := by
  simp only [github_api_loop, hout]
  rw [if_pos herr, if_neg hnrl, if_pos hraise]

/-- Transient branch: sleep `2 ^ attempt` and continue the loop. -/
theorem loop_step_transient (now : Int) (outcomes : Nat → AttemptOutcome)
    (attempt fuel : Nat) (r : HttpResponse)
    (hout : outcomes attempt = .resp r)
    (herr : 400 ≤ r.status ∧ r.status < 600)
    (hnrl : ¬(r.status = 403 ∧ hasRateLimitMarker r.text = true))
    (hnraise : ¬(r.status = 404 ∨ r.status = 409 ∨ attempt = maxRetries - 1)) :
    github_api_loop now outcomes attempt (fuel + 1) =
      stepRetry ((2 : Int) ^ attempt)
        (github_api_loop now outcomes (attempt + 1) fuel) := by
  simp only [github_api_loop, hout]
  rw [if_pos herr, if_neg hnrl, if_neg hnraise]

/-- Non-error status: `raise_for_status` does not raise, return at once. -/
theorem loop_step_success (now : Int) (outcomes : Nat → AttemptOutcome)
    (attempt fuel : Nat) (r : HttpResponse)
    (hout : outcomes attempt = .resp r)
    (hok : ¬(400 ≤ r.status ∧ r.status < 600)) :
    github_api_loop now outcomes attempt (fuel + 1) = ⟨.success r, [], 1⟩ := by
  simp only [github_api_loop, hout]
  rw [if_neg hok]

/-- Connection error on the last attempt: re-raise. -/
theorem loop_step_conn_last (now : Int) (outcomes : Nat → AttemptOutcome)
    (attempt fuel : Nat)
    (hout : outcomes attempt = .connError) (hlast : attempt = maxRetries - 1) :
    github_api_loop now outcomes attempt (fuel + 1) = ⟨.connectionError, [], 1⟩ := by
  simp only [github_api_loop, hout]
  rw [if_pos hlast]

/-- Connection error before the last attempt: sleep `2 ^ attempt` and
continue the loop. -/
theorem loop_step_conn_retry (now : Int) (outcomes : Nat → AttemptOutcome)
    (attempt fuel : Nat)
    (hout : outcomes attempt = .connError) (hnlast : attempt ≠ maxRetries - 1) :
    github_api_loop now outcomes attempt (fuel + 1) =
      stepRetry ((2 : Int) ^ attempt)
        (github_api_loop now outcomes (attempt + 1) fuel) := by
  simp only [github_api_loop, hout]
  rw [if_neg hnlast]

/-- Each loop iteration issues at most one HTTP attempt, so a run with
`fuel` iterations left issues at most `fuel` attempts. -/
theorem loop_attempts_le_fuel (now : Int) (outcomes : Nat → AttemptOutcome) :
    ∀ fuel attempt, (github_api_loop now outcomes attempt fuel).attempts ≤ fuel := by
  intro fuel
  induction fuel with
  | zero => intro attempt; simp [github_api_loop]
  | succ f ih =>
    intro attempt
    cases houtc : outcomes attempt with
    | resp r =>
      by_cases herr : 400 ≤ r.status ∧ r.status < 600
      · by_cases hrl : r.status = 403 ∧ hasRateLimitMarker r.text = true
        · rw [loop_step_rate_limited now outcomes attempt f r houtc hrl.1 hrl.2]
          simpa [stepRetry] using ih (attempt + 1)
        · by_cases hraise : r.status = 404 ∨ r.status = 409 ∨ attempt = maxRetries - 1
          · rw [loop_step_raise now outcomes attempt f r houtc herr hrl hraise]
            simp
          · rw [loop_step_transient now outcomes attempt f r houtc herr hrl hraise]
            simpa [stepRetry] using ih (attempt + 1)
      · rw [loop_step_success now outcomes attempt f r houtc herr]
        simp
    | connError =>
      by_cases hlast : attempt = maxRetries - 1
      · rw [loop_step_conn_last now outcomes attempt f houtc hlast]
        simp
      · rw [loop_step_conn_retry now outcomes attempt f houtc hlast]
        simpa [stepRetry] using ih (attempt + 1)

/-- At every reachable state (`attempt + fuel = maxRetries`), the loop
can only fall through to the generic line-58 raise when the final
attempt (index 4) received a rate-limited 403: every other branch of the
final iteration returns or re-raises. -/
theorem loop_exhausted_last_rate_limited (now : Int) (outcomes : Nat → AttemptOutcome) :
    ∀ fuel attempt, attempt + fuel = maxRetries → 1 ≤ fuel →
      (github_api_loop now outcomes attempt fuel).result = .retriesExhausted →
      ∃ r, outcomes 4 = .resp r ∧ r.status = 403 ∧ hasRateLimitMarker r.text = true := by
  intro fuel
  induction fuel with
  | zero => intro attempt _ h1; omega
  | succ f ih =>
    intro attempt hsum _ hres
    have hmax : maxRetries = 5 := rfl
    cases houtc : outcomes attempt with
    | resp r =>
      by_cases herr : 400 ≤ r.status ∧ r.status < 600
      · by_cases hrl : r.status = 403 ∧ hasRateLimitMarker r.text = true
        · rw [loop_step_rate_limited now outcomes attempt f r houtc hrl.1 hrl.2] at hres
          simp only [stepRetry] at hres
          cases f with
          | zero =>
            have ha : attempt = 4 := by omega
            subst ha
            exact ⟨r, houtc, hrl.1, hrl.2⟩
          | succ f' =>
            exact ih (attempt + 1) (by omega) (by omega) hres
        · by_cases hraise : r.status = 404 ∨ r.status = 409 ∨ attempt = maxRetries - 1
          · rw [loop_step_raise now outcomes attempt f r houtc herr hrl hraise] at hres
            simp at hres
          · rw [loop_step_transient now outcomes attempt f r houtc herr hrl hraise] at hres
            simp only [stepRetry] at hres
            cases f with
            | zero =>
              exfalso
              have : attempt ≠ maxRetries - 1 := fun h => hraise (Or.inr (Or.inr h))
              omega
            | succ f' =>
              exact ih (attempt + 1) (by omega) (by omega) hres
      · rw [loop_step_success now outcomes attempt f r houtc herr] at hres
        simp at hres
    | connError =>
      by_cases hlast : attempt = maxRetries - 1
      · rw [loop_step_conn_last now outcomes attempt f houtc hlast] at hres
        simp at hres
      · rw [loop_step_conn_retry now outcomes attempt f houtc hlast] at hres
        simp only [stepRetry] at hres
        cases f with
        | zero => exfalso; omega
        | succ f' =>
          exact ih (attempt + 1) (by omega) (by omega) hres

/-- A run of `k` connection errors followed by a 200 response, entirely
inside the attempt budget, returns that response after sleeping
`2 ^ attempt` for each connection error, the exponent being the global
attempt index. -/
theorem loop_conn_run (now : Int) (outcomes : Nat → AttemptOutcome) (r : HttpResponse) :
    ∀ k attempt fuel, attempt + fuel = maxRetries → k < fuel →
      (∀ i, i < k → outcomes (attempt + i) = .connError) →
      outcomes (attempt + k) = .resp r → r.status = 200 →
      github_api_loop now outcomes attempt fuel =
        ⟨.success r, (List.range k).map (fun i => (2 : Int) ^ (attempt + i)), k + 1⟩ := by
  intro k
  induction k with
  | zero =>
    intro attempt fuel hsum hk hpre hkr h200
    cases fuel with
    | zero => omega
    | succ f =>
      rw [loop_step_success now outcomes attempt f r (by simpa using hkr) (by omega)]
      simp
  | succ k' ih =>
    intro attempt fuel hsum hk hpre hkr h200
    cases fuel with
    | zero => omega
    | succ f =>
      have hmax : maxRetries = 5 := rfl
      have hconn : outcomes attempt = .connError := by
        simpa using hpre 0 (by omega)
      have hnlast : attempt ≠ maxRetries - 1 := by omega
      rw [loop_step_conn_retry now outcomes attempt f hconn hnlast]
      have hpre' : ∀ i, i < k' → outcomes (attempt + 1 + i) = .connError := by
        intro i hi
        have := hpre (i + 1) (by omega)
        rwa [show attempt + (i + 1) = attempt + 1 + i by omega] at this
      have hkr' : outcomes (attempt + 1 + k') = .resp r := by
        rwa [show attempt + 1 + k' = attempt + (k' + 1) by omega]
      rw [ih (attempt + 1) f (by omega) (by omega) hpre' hkr' h200]
      have hlist : (2 : Int) ^ attempt ::
            (List.range k').map (fun i => (2 : Int) ^ (attempt + 1 + i)) =
          (List.range (k' + 1)).map (fun i => (2 : Int) ^ (attempt + i)) := by
        rw [List.range_succ_eq_map, List.map_cons, List.map_map]
        refine congrArg₂ _ (by rw [Nat.add_zero]) ?_
        refine List.map_congr_left ?_
        intro a _
        simp only [Function.comp_apply]
        congr 1
        omega
      simp [stepRetry, hlist]


/-- C9: for every call to the Executor whose first attempt receives a
response with a status code in 200..299, the Executor returns that
response on the first attempt, without sleeping and without issuing any
further attempt. -/
theorem github_api_call_2xx_first_attempt (now : Int)
    (outcomes : Nat → AttemptOutcome) (r : HttpResponse)
    (hout : outcomes 0 = .resp r) (hlo : 200 ≤ r.status) (hhi : r.status ≤ 299) :
    github_api_call now outcomes = ⟨.success r, [], 1⟩ :=
  loop_step_success now outcomes 0 4 r hout (by omega)

/-- Witness for C9 at a concrete 200 response. -/
theorem github_api_call_2xx_first_attempt_witness :
    github_api_call 0 (fun _ => .resp ok200) = ⟨.success ok200, [], 1⟩ :=
  github_api_call_2xx_first_attempt 0 (fun _ => .resp ok200) ok200 rfl
    (by decide) (by decide)

/-- C10: any response whose status code is below 400 — 3xx redirect
statuses included, not only 2xx — is returned immediately as a success
on that attempt, with no classification, sleeping, or retry
(`raise_for_status` raises exactly for `400 ≤ status < 600`). -/
theorem github_api_call_below_400_first_attempt (now : Int)
    (outcomes : Nat → AttemptOutcome) (r : HttpResponse)
    (hout : outcomes 0 = .resp r) (h : r.status < 400) :
    github_api_call now outcomes = ⟨.success r, [], 1⟩ :=
  loop_step_success now outcomes 0 4 r hout (by omega)

/-- Witness for C10 at a concrete 302 redirect response. -/
theorem github_api_call_below_400_first_attempt_witness :
    github_api_call 0 (fun _ => .resp redirect302) = ⟨.success redirect302, [], 1⟩ :=
  github_api_call_below_400_first_attempt 0 (fun _ => .resp redirect302)
    redirect302 rfl (by decide)

/-- C3: on any attempt (the loop state is arbitrary: any attempt index,
any remaining fuel), a 404 or 409 response makes the Executor re-raise
that HTTP error immediately, with no sleep and no further attempt. -/
theorem github_api_loop_404_409_raise_immediately (now : Int)
    (outcomes : Nat → AttemptOutcome) (attempt fuel : Nat) (r : HttpResponse)
    (hout : outcomes attempt = .resp r)
    (hst : r.status = 404 ∨ r.status = 409) :
    github_api_loop now outcomes attempt (fuel + 1) = ⟨.httpError r, [], 1⟩ :=
  loop_step_raise now outcomes attempt fuel r hout (by rcases hst with h | h <;> omega)
    (by rintro ⟨h403, _⟩; rcases hst with h | h <;> omega)
    (by rcases hst with h | h
        · exact Or.inl h
        · exact Or.inr (Or.inl h))

/-- Witness for C3 at a concrete 404 response on the first attempt. -/
theorem github_api_loop_404_409_raise_immediately_witness :
    github_api_loop 0 (fun _ => .resp notFound404) 0 5 = ⟨.httpError notFound404, [], 1⟩ :=
  github_api_loop_404_409_raise_immediately 0 (fun _ => .resp notFound404) 0 4
    notFound404 rfl (Or.inl rfl)

/-- C6: for every call to the Executor, regardless of the sequence of
responses and connection failures observed, at most 5 HTTP attempts are
issued. -/
theorem github_api_call_at_most_five_attempts (now : Int)
    (outcomes : Nat → AttemptOutcome) :
    (github_api_call now outcomes).attempts ≤ 5 :=
  loop_attempts_le_fuel now outcomes maxRetries 0

/-- C4: if every attempt receives a 500 response, the Executor makes
exactly 5 HTTP attempts, sleeps 1, 2, 4 and 8 seconds between
consecutive attempts, and re-raises the HTTP error on the 5th. -/
theorem github_api_call_persistent_500 (now : Int) (r : HttpResponse)
    (h : r.status = 500) :
    github_api_call now (fun _ => .resp r) = ⟨.httpError r, [1, 2, 4, 8], 5⟩ := by
  have herr : 400 ≤ r.status ∧ r.status < 600 := by omega
  have hnrl : ¬(r.status = 403 ∧ hasRateLimitMarker r.text = true) := by
    rintro ⟨h403, _⟩; omega
  have hnr : ∀ a : Nat, a ≠ 4 →
      ¬(r.status = 404 ∨ r.status = 409 ∨ a = maxRetries - 1) := by
    intro a ha
    rintro (hh | hh | hh)
    · omega
    · omega
    · exact ha hh
  show github_api_loop now _ 0 (4 + 1) = _
  rw [loop_step_transient now _ 0 4 r rfl herr hnrl (hnr 0 (by decide)),
    loop_step_transient now _ 1 3 r rfl herr hnrl (hnr 1 (by decide)),
    loop_step_transient now _ 2 2 r rfl herr hnrl (hnr 2 (by decide)),
    loop_step_transient now _ 3 1 r rfl herr hnrl (hnr 3 (by decide)),
    loop_step_raise now _ 4 0 r rfl herr hnrl (Or.inr (Or.inr rfl))]
  simp [stepRetry]

/-- Witness for C4 at a concrete 500 response. -/
theorem github_api_call_persistent_500_witness :
    github_api_call 1000 (fun _ => .resp serverError500) =
      ⟨.httpError serverError500, [1, 2, 4, 8], 5⟩ :=
  github_api_call_persistent_500 1000 serverError500 rfl

/-- C7: connection-level failures are retried with the same exponential
backoff (sleep `2 ^ attempt` seconds) as transient server errors and are
re-raised on the 5th attempt; in particular any sequence of `k`
connection errors followed by a 200 within the 5-attempt budget returns
that successful response after `k + 1` attempts, with no further
attempts. -/
theorem github_api_call_connection_error_backoff (now : Int)
    (outcomes : Nat → AttemptOutcome) (k : Nat) (r : HttpResponse)
    (hk : k < 5) (hpre : ∀ i, i < k → outcomes i = .connError)
    (hkr : outcomes k = .resp r) (h200 : r.status = 200) :
    github_api_call now outcomes =
      ⟨.success r, (List.range k).map (fun i => (2 : Int) ^ i), k + 1⟩ ∧
    github_api_call now (fun _ => .connError) =
      ⟨.connectionError, [1, 2, 4, 8], 5⟩ := by
  constructor
  · have h := loop_conn_run now outcomes r k 0 maxRetries rfl hk
      (by intro i hi; simpa using hpre i hi) (by simpa using hkr) h200
    simpa [github_api_call] using h
  · rfl

/-- Witness for C7: two connection errors then a 200, and the
all-connection-errors run. -/
theorem github_api_call_connection_error_backoff_witness :
    github_api_call 0 connThenOk = ⟨.success ok200, [1, 2], 3⟩ ∧
    github_api_call 0 (fun _ => .connError) = ⟨.connectionError, [1, 2, 4, 8], 5⟩ := by
  have h := github_api_call_connection_error_backoff 0 connThenOk 2 ok200
    (by decide) (by intro i hi; interval_cases i <;> decide) (by decide) rfl
  refine ⟨?_, h.2⟩
  have h1 := h.1
  simpa [List.range_succ] using h1

/-- C1 counterexample: with a rate-limited 403 on attempt 0 and a 500 on
attempt 1 (`outcomesA`), the transient retry sleeps `2 ^ 1 = 2` seconds;
without the rate-limited attempt (`outcomesB`, the same tail) the very
same 500 retry sleeps `2 ^ 0 = 1` second.  So a rate-limited attempt
does change the sleep used by a subsequent transient retry, contrary to
the claim. -/
theorem rate_limited_attempt_advances_backoff_cex :
    (github_api_call 1000 outcomesA).sleeps = [61, 2] ∧
    (github_api_call 1000 outcomesB).sleeps = [1] := by decide

/-- C1 as amended: a rate-limited 403 retry consumes an attempt and does
count toward exponential backoff growth: a transient retry at loop index
`attempt` always sleeps `2 ^ attempt` seconds, the index counting every
earlier attempt, rate-limited ones included. -/
theorem github_api_loop_transient_sleep_global_attempt (now : Int)
    (outcomes : Nat → AttemptOutcome) (attempt fuel : Nat) (r : HttpResponse)
    (hout : outcomes attempt = .resp r)
    (herr : 400 ≤ r.status ∧ r.status < 600)
    (hnrl : ¬(r.status = 403 ∧ hasRateLimitMarker r.text = true))
    (h404 : r.status ≠ 404) (h409 : r.status ≠ 409) (hnlast : attempt ≠ 4) :
    github_api_loop now outcomes attempt (fuel + 1) =
      stepRetry ((2 : Int) ^ attempt)
        (github_api_loop now outcomes (attempt + 1) fuel) :=
  loop_step_transient now outcomes attempt fuel r hout herr hnrl
    (by rintro (hh | hh | hh)
        · exact h404 hh
        · exact h409 hh
        · exact hnlast hh)

/-- Witness for the amended C1: attempt index 1 after the rate-limited
attempt 0 of `outcomesA` sleeps `2 ^ 1`. -/
theorem github_api_loop_transient_sleep_global_attempt_witness :
    github_api_loop 1000 outcomesA 1 4 =
      stepRetry ((2 : Int) ^ 1) (github_api_loop 1000 outcomesA 2 3) :=
  github_api_loop_transient_sleep_global_attempt 1000 outcomesA 1 3
    serverError500 (by decide) (by decide) (by decide) (by decide) (by decide)
    (by decide)

/-- C2 counterexample: when every attempt receives a rate-limited 403,
the loop completes all 5 iterations without returning or raising inside
the loop, and the final generic retries-exhausted failure after the loop
is reached — it is not unreachable. -/
theorem retries_exhausted_reachable_cex :
    github_api_call 1000 (fun _ => .resp rateLimited403) =
      ⟨.retriesExhausted, [61, 61, 61, 61, 61], 5⟩ := by decide

/-- C2 as amended: the loop exits without returning a response or
raising a classified error exactly when the final (5th) attempt receives
a rate-limited 403; only then is the generic retries-exhausted failure
after the loop reached. -/
theorem github_api_call_exhausted_only_last_rate_limited (now : Int)
    (outcomes : Nat → AttemptOutcome)
    (h : (github_api_call now outcomes).result = .retriesExhausted) :
    ∃ r, outcomes 4 = .resp r ∧ r.status = 403 ∧ hasRateLimitMarker r.text = true :=
  loop_exhausted_last_rate_limited now outcomes maxRetries 0 rfl (by decide) h

/-- Witness for the amended C2 at the all-rate-limited run. -/
theorem github_api_call_exhausted_only_last_rate_limited_witness :
    ∃ r, (fun _ => AttemptOutcome.resp rateLimited403 : Nat → AttemptOutcome) 4 = .resp r ∧
      r.status = 403 ∧ hasRateLimitMarker r.text = true :=
  github_api_call_exhausted_only_last_rate_limited 1000
    (fun _ => .resp rateLimited403) (by decide)

/-- C5 counterexample: with a rate-limited 403 on every attempt inside
the budget and a 200 available on any attempt beyond it (`rlThenOk`),
the 5th rate-limited response is followed by the computed sleep but by
no retry: the call issues exactly 5 attempts and fails with the generic
retries-exhausted error instead of retrying and returning the 200.  The
claim's final clause ("and then retries the request") therefore fails on
the last attempt. -/
theorem rate_limited_final_attempt_no_retry_cex :
    github_api_call 1000 rlThenOk = ⟨.retriesExhausted, [61, 61, 61, 61, 61], 5⟩ := by
  decide

/-- C5 as amended: for a 403 response whose body contains the
case-insensitive rate-limit marker, the Executor sleeps
`max(reset - now + 1, 10)` seconds, the reset epoch read from the
`X-RateLimit-Reset` header with default `now + 60` when absent, and then
continues the loop — retrying only if an attempt remains, and otherwise
failing with the generic retries-exhausted error. -/
theorem github_api_loop_rate_limited_reset_sleep (now : Int)
    (outcomes : Nat → AttemptOutcome) (attempt fuel : Nat) (r : HttpResponse)
    (hout : outcomes attempt = .resp r) (h403 : r.status = 403)
    (hmk : hasRateLimitMarker r.text = true) :
    github_api_loop now outcomes attempt (fuel + 1) =
      stepRetry (max (r.rateLimitReset.getD (now + 60) - now + 1) 10)
        (github_api_loop now outcomes (attempt + 1) fuel) :=
  loop_step_rate_limited now outcomes attempt fuel r hout h403 hmk

/-- Witness for the amended C5 at a rate-limited response carrying a
reset header. -/
theorem github_api_loop_rate_limited_reset_sleep_witness :
    github_api_loop 1000 (fun _ => .resp rateLimitedWithReset) 0 5 =
      stepRetry (max (rateLimitedWithReset.rateLimitReset.getD (1000 + 60) - 1000 + 1) 10)
        (github_api_loop 1000 (fun _ => .resp rateLimitedWithReset) 1 4) :=
  github_api_loop_rate_limited_reset_sleep 1000 (fun _ => .resp rateLimitedWithReset)
    0 4 rateLimitedWithReset rfl rfl (by decide)

/-- The splitlines scan always produces at least one line. -/
theorem pySplitlinesAux_ne_nil : ∀ l cur, pySplitlinesAux cur l ≠ [] := by
  intro l
  induction l with
  | nil => intro cur; simp [pySplitlinesAux]
  | cons c cs ih =>
    intro cur
    simp only [pySplitlinesAux]
    split_ifs with hc
    · cases cs with
      | nil => simp
      | cons d ds => simp
    · exact ih (c :: cur)

/-- Python `splitlines` of a non-empty string is non-empty. -/
theorem pySplitlines_ne_nil (s : String) (h : s ≠ "") : pySplitlines s ≠ [] := by
  obtain ⟨data⟩ := s
  cases data with
  | nil => exact absurd rfl h
  | cons c cs =>
    simp only [pySplitlines]
    intro hmap
    exact pySplitlinesAux_ne_nil (c :: cs) [] (by simpa using hmap)

/-- C8 counterexample: an orchestration step fails with an `HTTPError`
whose response body is empty; `e.response.text.splitlines()[0]` then
raises `IndexError` inside the handler itself, so no failure-log append
is attempted and the process terminates on the uncaught error rather
than through the handler's `exit(1)`. -/
theorem runMain_empty_text_no_log_cex :
    runMain (some (.httpError 500 "")) true = ⟨.uncaughtInHandler, 0⟩ := by decide

/-- C8 as amended: if an orchestration step raises an error whose
handler-formatted text is non-empty (true of every message the program
itself builds, but not of an HTTP response with an empty body), the
process attempts exactly one failure-log append and exits with code 1,
whether that log write succeeds or fails; on full success it exits with
code 0. -/
theorem runMain_failure_logged_once (e : PyError) (b : Bool)
    (h : e.handlerText ≠ "") :
    runMain (some e) b = ⟨.exitCode 1, 1⟩ ∧ runMain none b = ⟨.exitCode 0, 0⟩ := by
  refine ⟨?_, rfl⟩
  cases e with
  | httpError st tx =>
    have hne : pySplitlines tx ≠ [] :=
      pySplitlines_ne_nil tx (by simpa [PyError.handlerText] using h)
    cases hl : pySplitlines tx with
    | nil => exact absurd hl hne
    | cons a as => simp [runMain, hl]
  | otherError msg =>
    have hne : pySplitlines msg ≠ [] :=
      pySplitlines_ne_nil msg (by simpa [PyError.handlerText] using h)
    cases hl : pySplitlines msg with
    | nil => exact absurd hl hne
    | cons a as => simp [runMain, hl]

/-- Witness for the amended C8: a 409 merge failure with a non-empty
body, with the log write itself failing. -/
theorem runMain_failure_logged_once_witness :
    runMain (some (.httpError 409 "Conflict")) true = ⟨.exitCode 1, 1⟩ ∧
    runMain none true = ⟨.exitCode 0, 0⟩ :=
  runMain_failure_logged_once (.httpError 409 "Conflict") true (by decide)
